import Mathlib

/-!
Verification development for the crypto dashboard script
(src/crypto_dashboard.py).

The script's core is: an HTTP fetch layer with retry-on-429 and error
handling (`fetch_crypto_data`, `fetch_historical_data`), a cached market
snapshot, a name filter over the snapshot (pandas
`df["name"].str.contains(coin_name, case=False)`), a disambiguation step
by coin id, and a per-window historical trend section guarded by
`len(filtered_df) == 1`.

The embedding below models:
* a `CoinRecord` / `DataFrame` data model, where a `DataFrame` carries a
  `hasCols` flag because `pd.DataFrame()` (the failure result of the
  fetch) has no columns at all, so that `df["name"]` on it raises
  `KeyError`;
* the pandas filter, including the fact that `str.contains` interprets
  the query as a regular expression (default `regex=True`) with
  `re.IGNORECASE`.  The regex fragment actually modelled is the fragment
  exercised here: literal characters and the `.` wildcard; other
  metacharacters do not occur in the inputs considered by the theorems;
* both fetch functions as functions of the upstream response sequence,
  returning the result, the emitted messages and the number of retry
  sleeps (`none` models non-termination when the response list is
  exhausted by 429s);
* the script body (lines 72-169) as `runPass`, returning which sections
  were rendered, which historical fetches were issued, and aborting with
  a `PassError` when the Python would raise.
-/

set_option maxRecDepth 4000

/-- One coin row of the market listing, with the fields the script uses:
`id`, `name`, `symbol`, `current_price`, `total_volume` and the embedded
7-day sparkline (prices modelled as integers; their values never affect
control flow). -/
structure CoinRecord where
  id : String
  name : String
  symbol : String
  current_price : Int
  total_volume : Int
  sparkline : List Int
deriving DecidableEq

/-- A pandas DataFrame of coin rows.  `hasCols` records whether the frame
has the coin columns: `pd.DataFrame()` and `pd.DataFrame([])` have no
columns, so column access on them raises `KeyError`. -/
structure DataFrame where
  hasCols : Bool
  rows : List CoinRecord
deriving DecidableEq

/-- `pd.DataFrame(body)` for a decoded JSON array `body`: the frame has
columns exactly when the array is nonempty. -/
def DataFrame.fromRecords (rows : List CoinRecord) : DataFrame :=
  { hasCols := !rows.isEmpty, rows := rows }

/-- `pd.DataFrame()`, the value returned on every fetch failure path. -/
def emptyDF : DataFrame := { hasCols := false, rows := [] }

/-- Errors the Python script can raise while the page pass runs (only the
ones reachable in the modelled fragment). -/
inductive PassError where
  | keyError
deriving DecidableEq

/-- One element of a compiled pattern for the regex fragment exercised by
the script: a literal character (stored lowercased, modelling
`re.IGNORECASE`) or the `.` wildcard. -/
inductive PChar where
  | lit (c : Char)
  | any
deriving DecidableEq

/-- Compile the user's query string the way `str.contains(q, case=False)`
does for the fragment modelled: `.` becomes the wildcard, every other
character a case-insensitive literal. -/
def compilePat (q : String) : List PChar :=
  q.data.map (fun c => if c = '.' then PChar.any else PChar.lit c.toLower)

/-- Does one pattern element match one subject character? -/
def pcharMatch : PChar → Char → Bool
  | PChar.lit c, d => c = d.toLower
  | PChar.any, _ => true

/-- Does the pattern match at the very start of the subject? -/
def patStartsWith : List PChar → List Char → Bool
  | [], _ => true
  | _ :: _, [] => false
  | p :: ps, c :: cs => pcharMatch p c && patStartsWith ps cs

/-- `re.search`: does the pattern match anywhere in the subject? -/
def patSearch (ps : List PChar) : List Char → Bool
  | [] => patStartsWith ps []
  | c :: cs => patStartsWith ps (c :: cs) || patSearch ps cs

/-- The boolean the pandas mask computes for one row:
`bool(re.search(q, name, re.IGNORECASE))` for our regex fragment. -/
def nameMatches (q : String) (r : CoinRecord) : Bool :=
  patSearch (compilePat q) r.name.data

/-- `df[df["name"].str.contains(q, case=False)]`: raises `KeyError` when
the frame has no `name` column (the failure `pd.DataFrame()`), otherwise
keeps the rows whose name the pattern matches. -/
def DataFrame.filterContains (df : DataFrame) (q : String) :
    Except PassError DataFrame :=
  if df.hasCols then
    Except.ok { hasCols := df.hasCols, rows := df.rows.filter (nameMatches q) }
  else
    Except.error PassError.keyError

/-- Lines 74-78 of the script: empty (falsy) query keeps the whole frame,
otherwise filter by the name pattern. -/
def filtered_df (df : DataFrame) (coin_name : String) :
    Except PassError DataFrame :=
  if coin_name = "" then Except.ok df else df.filterContains coin_name

/-- Literal case-insensitive substring containment on character lists:
the predicate the spec describes (`q.lower() in name.lower()`). -/
def listStartsWith : List Char → List Char → Bool
  | [], _ => true
  | _ :: _, [] => false
  | a :: as, b :: bs => a = b && listStartsWith as bs

/-- `q in s` for character lists (contiguous substring). -/
def containsSub (q : List Char) : List Char → Bool
  | [] => listStartsWith q []
  | c :: cs => listStartsWith q (c :: cs) || containsSub q cs

/-- Lowercase a character list (ASCII lowercasing, as `str.lower` does on
the ASCII names at hand). -/
def lowerChars (s : List Char) : List Char :=
  s.map Char.toLower

/-- Python regex metacharacters; a query free of them is matched by
`str.contains` exactly as a literal substring. -/
def isRegexMeta (c : Char) : Bool :=
  [46, 94, 36, 42, 43, 63, 123, 125, 91, 93, 92, 124, 40, 41].contains c.toNat

/-- The spec's matching predicate, written from the spec's words for
comparison with the code's `nameMatches`: case-insensitive literal
substring containment on the name field. -/
def specNameMatches (q : String) (r : CoinRecord) : Bool :=
  containsSub (lowerChars q.data) (lowerChars r.name.data)

/-- Test fixture: the Bitcoin row of the end-to-end scenario. -/
def btc : CoinRecord :=
  { id := "bitcoin", name := "Bitcoin", symbol := "btc",
    current_price := 50000, total_volume := 1000, sparkline := [1, 2, 3] }

/-- Test fixture: the Bitcoin Cash row of the end-to-end scenario. -/
def bch : CoinRecord :=
  { id := "bitcoin-cash", name := "Bitcoin Cash", symbol := "bch",
    current_price := 200, total_volume := 10, sparkline := [4, 5] }

/-- Test fixture: a successfully fetched two-coin snapshot. -/
def testDF : DataFrame := DataFrame.fromRecords [btc, bch]

/-- A message emitted through the UI layer while fetching: `st.warning`
on the 429 retry path, `st.error` on each terminal failure path. -/
inductive Msg where
  | warnRetry
  | errUnauthorized
  | errStatus (code : Nat)
  | errException
deriving DecidableEq

/-- Is the message one of the `st.error` calls (as opposed to the retry
warning)? -/
def Msg.isError : Msg → Bool
  | Msg.warnRetry => false
  | _ => true

/-- One upstream response to the market-listing request: a 200 with a
decoded JSON array of rows, a 429, a 401, another status code, or a
raised exception (timeout, transport error, malformed body — anything
the `except` clause catches). -/
inductive MResp where
  | ok (rows : List CoinRecord)
  | rate
  | unauth
  | other (code : Nat)
  | exc
deriving DecidableEq

/-- `fetch_crypto_data` (lines 9-34) as a function of the sequence of
upstream responses it will receive, one response consumed per request.
Returns the DataFrame, the emitted messages and the number of
10-second retry sleeps; `none` models divergence (the unbounded
recursive retry never reaching a non-429 response). -/
def fetch_crypto_data : List MResp → Option (DataFrame × List Msg × Nat)
  | [] => none
  | MResp.ok rows :: _ => some (DataFrame.fromRecords rows, [], 0)
  | MResp.rate :: rest =>
      match fetch_crypto_data rest with
      | none => none
      | some (df, msgs, n) => some (df, Msg.warnRetry :: msgs, n + 1)
  | MResp.unauth :: _ => some (emptyDF, [Msg.errUnauthorized], 0)
  | MResp.other code :: _ => some (emptyDF, [Msg.errStatus code], 0)
  | MResp.exc :: _ => some (emptyDF, [Msg.errException], 0)

/-- The decoded body of a historical 200: the `prices` array of
(epoch-ms, price) points; `none` models the empty dict `{}` returned on
failure (falsy in the `if historical_data:` checks). -/
def HistData := Option (List (Int × Int))
deriving DecidableEq

/-- One upstream response to a market-chart request. -/
inductive HResp where
  | ok (pts : List (Int × Int))
  | rate
  | unauth
  | other (code : Nat)
  | exc
deriving DecidableEq

/-- `fetch_historical_data` (lines 37-60) as a function of the upstream
response sequence: same shape as `fetch_crypto_data`, returning the
decoded dict (`none` = the empty dict `{}`), the messages and the sleep
count; outer `none` models divergence under unbounded 429s. -/
def fetch_historical_data (coin_id days : String) :
    List HResp → Option (HistData × List Msg × Nat)
  | [] => none
  | HResp.ok pts :: _ => some (some pts, [], 0)
  | HResp.rate :: rest =>
      match fetch_historical_data coin_id days rest with
      | none => none
      | some (o, msgs, n) => some (o, Msg.warnRetry :: msgs, n + 1)
  | HResp.unauth :: _ => some (none, [Msg.errUnauthorized], 0)
  | HResp.other code :: _ => some (none, [Msg.errStatus code], 0)
  | HResp.exc :: _ => some (none, [Msg.errException], 0)

/-- The shape of a `requests.get(url, params=...)` call: url, query
parameters, and the `timeout` keyword — `none` when the call passes no
timeout (the library then waits without bound). -/
structure HttpRequest where
  url : String
  params : List (String × String)
  timeout : Option Nat
deriving DecidableEq

/-- The market-listing request as issued on line 20: note no `timeout`
keyword appears in the call. -/
def marketRequest : HttpRequest :=
  { url := "https://api.coingecko.com/api/v3/coins/markets",
    params := [("vs_currency", "usd"), ("order", "market_cap_desc"),
               ("per_page", "50"), ("page", "1"), ("sparkline", "true")],
    timeout := none }

/-- The market-chart request as issued on line 46 for a coin id and a
`days` selector (lines 38-43): minute interval exactly for `days = "1"`,
daily otherwise; again no `timeout` keyword. -/
def historicalRequest (coin_id days : String) : HttpRequest :=
  { url := "https://api.coingecko.com/api/v3/coins/" ++ coin_id ++ "/market_chart",
    params := [("vs_currency", "usd"), ("days", days),
               ("interval", if days = "1" then "minute" else "daily")],
    timeout := none }

/-- Look a key up in a request's parameter list. -/
def HttpRequest.param (r : HttpRequest) (key : String) : Option String :=
  (r.params.find? (fun p => p.fst = key)).map Prod.snd

/-- The `days` values the trend sections (lines 123-163) pass to
`fetch_historical_data`, in page order: 24h, 1w, 1m, 6m, 1y. -/
def assemblerDays : List String := ["1", "7", "30", "180", "365"]

/-- Is the market-listing response a terminal failure (401, other
non-200/429 status, or a raised exception)? -/
def MResp.isFailure : MResp → Bool
  | MResp.unauth => true
  | MResp.other _ => true
  | MResp.exc => true
  | _ => false

/-- Is the market-chart response a terminal failure? -/
def HResp.isFailure : HResp → Bool
  | HResp.unauth => true
  | HResp.other _ => true
  | HResp.exc => true
  | _ => false

/-- A placeholder row for the total `getD` list accesses whose guards
(`len(filtered_df) == 1`, `len > 1`) make the default unreachable. -/
def dummyRecord : CoinRecord :=
  { id := "", name := "", symbol := "", current_price := 0,
    total_volume := 0, sparkline := [] }

/-- Line 89: `df[df['id'] == selected_coin_id]` — narrow the full frame
to the rows bearing the selected id. -/
def filterById (df : DataFrame) (coin_id : String) : DataFrame :=
  { hasCols := df.hasCols, rows := df.rows.filter (fun x => decide (x.id = coin_id)) }

/-- Lines 121-169: the five per-window trend sections, in page order.
Each section calls `fetch_historical_data(coin_id, days)` (modelled by
the outcome function `hfetch`) and renders its chart exactly when the
returned dict is truthy.  Returns the fetches issued and the windows
rendered. -/
def renderTrends (r : CoinRecord) (hfetch : String → String → HistData) :
    List (String × String) × List String :=
  (assemblerDays.map (fun d => (r.id, d)),
   assemblerDays.filter (fun d => (hfetch r.id d).isSome))

/-- Lines 108-169: the whole per-coin detail block runs only under the
`len(filtered_df) == 1` guard.  Returns (sparkline section shown,
historical fetches issued, windows rendered). -/
def trendSection (fdf2 : DataFrame) (hfetch : String → String → HistData) :
    Bool × List (String × String) × List String :=
  if fdf2.rows.length = 1 then
    let r := fdf2.rows.getD 0 dummyRecord
    (true, (renderTrends r hfetch).1, (renderTrends r hfetch).2)
  else
    (false, [], [])

/-- What one top-to-bottom pass of the script body produced. -/
structure PassOutput where
  finalRows : List CoinRecord
  multiShown : Bool
  noMatchMsg : Bool
  realTimeShown : Bool
  tableShown : Bool
  sparkShown : Bool
  fetches : List (String × String)
  rendered : List String
deriving DecidableEq

/-- Lines 72-169 of the script as one pass: filter by the query (may
raise `KeyError` on a column-less frame), disambiguate when several rows
match (`pickIdx` models which selectbox option the user picks), show the
real-time price and table sections, and run the trend sections under the
`len == 1` guard. -/
def runPass (df : DataFrame) (coin_name : String) (pickIdx : Nat)
    (hfetch : String → String → HistData) : Except PassError PassOutput :=
  match filtered_df df coin_name with
  | Except.error e => Except.error e
  | Except.ok fdf =>
    let step : DataFrame × Bool × Bool :=
      if fdf.rows.length > 1 then
        let sel := fdf.rows.getD (pickIdx % fdf.rows.length) dummyRecord
        (filterById df sel.id, true, false)
      else if fdf.rows.length = 1 then
        (fdf, false, false)
      else
        (fdf, false, true)
    let fdf2 := step.1
    let ts := trendSection fdf2 hfetch
    Except.ok
      { finalRows := fdf2.rows, multiShown := step.2.1, noMatchMsg := step.2.2,
        realTimeShown := !fdf2.rows.isEmpty, tableShown := fdf2.hasCols,
        sparkShown := ts.1, fetches := ts.2.1, rendered := ts.2.2 }

/-- Modelled from the spec: the single-entry cache the UI framework's
`@st.cache_data(ttl=600)` decorator (line 8) provides around
`fetch_crypto_data`; the memoization machinery itself is external to the
repository, so the entry/TTL behavior follows spec sections 3
(`CacheEntry`) and 4.2. -/
structure CacheEntry where
  value : DataFrame
  fetched_at : Nat
deriving DecidableEq

/-- The time-to-live, 600 seconds, from line 8 of the source. -/
def cacheTTL : Nat := 600

/-- Modelled from the spec: `get_snapshot()` reads the single cache
entry; a read after `now - fetched_at > ttl` triggers a synchronous
refetch, otherwise the cached value is returned with no network call.
Returns the value, the new cache state, and how many network fetches
this call performed. -/
def get_snapshot (fetch : Nat → DataFrame) (state : Option CacheEntry)
    (now : Nat) : DataFrame × Option CacheEntry × Nat :=
  match state with
  | none => (fetch now, some { value := fetch now, fetched_at := now }, 1)
  | some e =>
    if now - e.fetched_at > cacheTTL then
      (fetch now, some { value := fetch now, fetched_at := now }, 1)
    else
      (e.value, some e, 0)

/-- Test fixture: a per-window outcome function where only the 30-day
fetch fails. -/
def sampleHFetch : String → String → HistData :=
  fun _ d => if d = "30" then none else some []

/-- Test fixture: the pass output for query "cash" on the two-coin
snapshot with only the 30-day window failing. -/
def samplePassOut : PassOutput :=
  { finalRows := [bch], multiShown := false, noMatchMsg := false,
    realTimeShown := true, tableShown := true, sparkShown := true,
    fetches := [("bitcoin-cash", "1"), ("bitcoin-cash", "7"),
                ("bitcoin-cash", "30"), ("bitcoin-cash", "180"),
                ("bitcoin-cash", "365")],
    rendered := ["1", "7", "180", "365"] }

theorem pcharMatch_lit (c d : Char) :
    pcharMatch (PChar.lit c) d = decide (c = d.toLower) := rfl

theorem patStartsWith_eq_listStartsWith (q : List Char) (hq : PChar.any ∉ q.map (fun c => if c = '.' then PChar.any else PChar.lit c.toLower)) :
    ∀ s : List Char,
      patStartsWith (q.map (fun c => if c = '.' then PChar.any else PChar.lit c.toLower)) s
        = listStartsWith (lowerChars q) (lowerChars s) := by
  induction q with
  | nil => intro s; cases s <;> rfl
  | cons c cs ih =>
    intro s
    by_cases hc : c = '.'
    · exact absurd (by simp [hc]) hq
    · have hq' : PChar.any ∉ cs.map (fun c => if c = '.' then PChar.any else PChar.lit c.toLower) := by
        intro hmem
        exact hq (by simp only [List.map_cons, if_neg hc]; exact List.mem_cons_of_mem _ hmem)
      cases s with
      | nil => simp [lowerChars, patStartsWith, listStartsWith, if_neg hc]
      | cons d ds =>
        simp only [List.map_cons, if_neg hc, lowerChars, patStartsWith, listStartsWith,
          pcharMatch]
        have := ih hq' ds
        simp only [lowerChars] at this
        rw [this]

theorem compile_no_any (q : List Char) (hd : '.' ∉ q) :
    PChar.any ∉ q.map (fun c => if c = '.' then PChar.any else PChar.lit c.toLower) := by
  intro hmem
  obtain ⟨c, hc, heq⟩ := List.mem_map.mp hmem
  by_cases h : c = '.'
  · exact hd (h ▸ hc)
  · simp [if_neg h] at heq

theorem patSearch_eq_containsSub (q : List Char) (hd : '.' ∉ q) (s : List Char) :
    patSearch (q.map (fun c => if c = '.' then PChar.any else PChar.lit c.toLower)) s
      = containsSub (lowerChars q) (lowerChars s) := by
  have hq := compile_no_any q hd
  induction s with
  | nil =>
    simpa [patSearch, containsSub, lowerChars] using
      patStartsWith_eq_listStartsWith q hq []
  | cons c cs ih =>
    simp only [patSearch, lowerChars, List.map_cons, containsSub]
    rw [patStartsWith_eq_listStartsWith q hq (c :: cs)]
    simp only [lowerChars, List.map_cons] at ih ⊢
    rw [ih]

theorem containsSub_nil_left (s : List Char) : containsSub [] s = true := by
  cases s <;> simp [containsSub, listStartsWith]

theorem nameMatches_eq_spec (q : String) (r : CoinRecord)
    (hm : ∀ c ∈ q.data, isRegexMeta c = false) :
    nameMatches q r = specNameMatches q r := by
  have hd : '.' ∉ q.data := by
    intro h
    exact absurd (hm '.' h) (by decide)
  exact patSearch_eq_containsSub q.data hd r.name.data

/-- C1 (counterexample): the filter is NOT literal substring matching:
`str.contains` treats the query as a regular expression, so query `"."`
keeps the Bitcoin row even though `"."` is not a substring of
`"bitcoin"`. -/
theorem C1_counterexample :
    filtered_df testDF "." = Except.ok testDF ∧
    btc ∈ testDF.rows ∧
    specNameMatches "." btc = false := by
  refine ⟨?_, by decide, by decide⟩
  rfl

/-- C1 (amended): for queries containing no regex metacharacters, the
candidate set is exactly the records whose name contains the query as a
case-insensitive substring (sound and complete, on the name field only),
and the empty query keeps the whole snapshot. -/
theorem C1_filter_sound_complete (df : DataFrame) (q : String)
    (hc : df.hasCols = true)
    (hm : ∀ c ∈ q.data, isRegexMeta c = false) :
    ∃ out, filtered_df df q = Except.ok out ∧
      out.rows = df.rows.filter (specNameMatches q) ∧
      (q = "" → out = df) := by
  by_cases hq : q = ""
  · subst hq
    refine ⟨df, rfl, ?_, fun _ => rfl⟩
    have : ∀ r ∈ df.rows, specNameMatches "" r = true := by
      intro r _
      exact containsSub_nil_left _
    rw [List.filter_eq_self.mpr this]
  · refine ⟨{ hasCols := df.hasCols, rows := df.rows.filter (nameMatches q) }, ?_, ?_, fun h => absurd h hq⟩
    · simp [filtered_df, if_neg hq, DataFrame.filterContains, hc]
    · simp only []
      exact List.filter_congr (fun r _ => nameMatches_eq_spec q r hm)

/-- C1 (witness): the amended theorem at the two-coin snapshot and the
literal query "bit". -/
theorem C1_filter_witness :
    ∃ out, filtered_df testDF "bit" = Except.ok out ∧
      out.rows = testDF.rows.filter (specNameMatches "bit") ∧
      ("bit" = "" → out = testDF) :=
  C1_filter_sound_complete testDF "bit" rfl (by decide)

/-- C3 (counterexample): the retry is not capped at one per call — two
429 responses followed by a 200 cause two retry sleeps and still
succeed, contradicting "at most one retry per call". -/
theorem C3_counterexample :
    fetch_crypto_data [MResp.rate, MResp.rate, MResp.ok [btc]]
      = some (DataFrame.fromRecords [btc], [Msg.warnRetry, Msg.warnRetry], 2) ∧
    ¬ (2 ≤ 1) :=
  ⟨rfl, by decide⟩

/-- C3 (amended): a 429 triggers a 10-second backoff and a retry of the
same request, with no retry cap: k consecutive 429s followed by a 200
yield the successful result after exactly k retry sleeps, at both call
sites; in particular a single 429 then a 200 yields the result with
exactly one sleep. -/
theorem C3_retry_unbounded (k : Nat) (coin_id days : String)
    (rows : List CoinRecord) (pts : List (Int × Int))
    (mrest : List MResp) (hrest : List HResp) :
    fetch_crypto_data (List.replicate k MResp.rate ++ MResp.ok rows :: mrest)
      = some (DataFrame.fromRecords rows, List.replicate k Msg.warnRetry, k) ∧
    fetch_historical_data coin_id days
        (List.replicate k HResp.rate ++ HResp.ok pts :: hrest)
      = some (some pts, List.replicate k Msg.warnRetry, k) := by
  constructor
  · induction k with
    | zero => rfl
    | succ n ih => simp [List.replicate_succ, fetch_crypto_data, ih]
  · induction k with
    | zero => rfl
    | succ n ih => simp [List.replicate_succ, fetch_historical_data, ih]

/-- C4 (counterexample): neither request carries a 10-second timeout —
the `requests.get` calls pass no timeout keyword at all. -/
theorem C4_counterexample :
    marketRequest.timeout ≠ some 10 ∧
    (historicalRequest "bitcoin" "1").timeout ≠ some 10 := by
  exact ⟨by decide, by decide⟩

/-- C4 (amended): every request the fetch client issues is sent with no
explicit timeout bound: the HTTP library's default of waiting without
bound applies, so no `Timeout` is ever raised by a configured bound. -/
theorem C4_no_timeout (coin_id days : String) :
    marketRequest.timeout = none ∧
    (historicalRequest coin_id days).timeout = none :=
  ⟨rfl, rfl⟩

/-- C9: at every `days` value the trend sections actually pass, the
market-chart request carries `interval=minute` exactly when the window
is the 1-day window, and `interval=daily` for all the longer windows. -/
theorem C9_interval (coin_id days : String) (hd : days ∈ assemblerDays) :
    ((historicalRequest coin_id days).param "interval" = some "minute"
        ↔ days = "1") ∧
    (days ≠ "1" →
      (historicalRequest coin_id days).param "interval" = some "daily") := by
  simp only [assemblerDays, List.mem_cons, List.not_mem_nil, or_false] at hd
  have hp : ∀ d : String, (historicalRequest coin_id d).param "interval"
      = some (if d = "1" then "minute" else "daily") := by
    intro d
    simp [historicalRequest, HttpRequest.param, List.find?]
  rcases hd with h | h | h | h | h <;> subst h <;> simp [hp]

/-- C9 (witness): the 1-day window request uses the minute interval. -/
theorem C9_interval_witness :
    ((historicalRequest "bitcoin" "1").param "interval" = some "minute"
        ↔ ("1" : String) = "1") ∧
    (("1" : String) ≠ "1" →
      (historicalRequest "bitcoin" "1").param "interval" = some "daily") :=
  C9_interval "bitcoin" "1" (by decide)

theorem fetch_crypto_data_failure (k : Nat) (r : MResp) (rest : List MResp)
    (hr : r.isFailure = true) :
    ∃ msgs n,
      fetch_crypto_data (List.replicate k MResp.rate ++ r :: rest)
        = some (emptyDF, msgs, n) ∧ msgs.any Msg.isError = true := by
  induction k with
  | zero =>
    cases r with
    | unauth => exact ⟨[Msg.errUnauthorized], 0, rfl, rfl⟩
    | other code => exact ⟨[Msg.errStatus code], 0, rfl, rfl⟩
    | exc => exact ⟨[Msg.errException], 0, rfl, rfl⟩
    | ok rows => simp [MResp.isFailure] at hr
    | rate => simp [MResp.isFailure] at hr
  | succ n ih =>
    obtain ⟨msgs, m, heq, hany⟩ := ih
    exact ⟨Msg.warnRetry :: msgs, m + 1,
      by simp [List.replicate_succ, fetch_crypto_data, heq],
      by simp [Msg.isError, hany]⟩

theorem fetch_historical_data_failure (coin_id days : String) (k : Nat)
    (s : HResp) (rest : List HResp) (hs : s.isFailure = true) :
    ∃ msgs n,
      fetch_historical_data coin_id days
          (List.replicate k HResp.rate ++ s :: rest)
        = some (none, msgs, n) ∧ msgs.any Msg.isError = true := by
  induction k with
  | zero =>
    cases s with
    | unauth => exact ⟨[Msg.errUnauthorized], 0, rfl, rfl⟩
    | other code => exact ⟨[Msg.errStatus code], 0, rfl, rfl⟩
    | exc => exact ⟨[Msg.errException], 0, rfl, rfl⟩
    | ok pts => simp [HResp.isFailure] at hs
    | rate => simp [HResp.isFailure] at hs
  | succ n ih =>
    obtain ⟨msgs, m, heq, hany⟩ := ih
    exact ⟨Msg.warnRetry :: msgs, m + 1,
      by simp [List.replicate_succ, fetch_historical_data, heq],
      by simp [Msg.isError, hany]⟩

/-- C8: whenever the terminal upstream response is a failure (401,
other non-2xx, or an exception — after any number of 429 retries), the
snapshot fetch returns the empty DataFrame and the historical fetch the
empty dict, and in both cases at least one error message is reported:
failure is never silently converted to the default value. -/
theorem C8_failure_empty_and_reported (k j : Nat) (r : MResp)
    (mrest : List MResp) (coin_id days : String) (s : HResp)
    (hrest : List HResp) (hr : r.isFailure = true) (hs : s.isFailure = true) :
    (∃ msgs n,
      fetch_crypto_data (List.replicate k MResp.rate ++ r :: mrest)
        = some (emptyDF, msgs, n) ∧ msgs.any Msg.isError = true) ∧
    (∃ msgs n,
      fetch_historical_data coin_id days
          (List.replicate j HResp.rate ++ s :: hrest)
        = some (none, msgs, n) ∧ msgs.any Msg.isError = true) :=
  ⟨fetch_crypto_data_failure k r mrest hr,
   fetch_historical_data_failure coin_id days j s hrest hs⟩

/-- C8 (witness): a 401 on the listing and an exception on the chart
both yield empty results with an error reported. -/
theorem C8_failure_witness :
    (∃ msgs n, fetch_crypto_data (List.replicate 0 MResp.rate ++ MResp.unauth :: [])
        = some (emptyDF, msgs, n) ∧ msgs.any Msg.isError = true) ∧
    (∃ msgs n, fetch_historical_data "bitcoin" "7"
          (List.replicate 1 HResp.rate ++ HResp.exc :: [])
        = some (none, msgs, n) ∧ msgs.any Msg.isError = true) :=
  C8_failure_empty_and_reported 0 1 MResp.unauth [] "bitcoin" "7" HResp.exc [] rfl rfl

/-- C2: the claimed graceful degradation fails: when the market-snapshot
fetch fails (the empty `pd.DataFrame()` with no columns) and the query
is non-empty, line 76's `df["name"]` raises `KeyError` and the whole
pass aborts instead of completing with a "no data" section. -/
theorem C2_pass_aborts_on_empty_snapshot :
    runPass emptyDF "bitcoin" 0 (fun _ _ => none)
      = Except.error PassError.keyError := rfl

/-- C6: with the 30-day window's fetch failing, the 30-day chart is not
rendered, while every other window is rendered exactly when its own
fetch succeeds — the 30-day failure never blocks or invalidates the
other windows. -/
theorem C6_window_independence (r : CoinRecord)
    (hfetch : String → String → HistData) (h30 : hfetch r.id "30" = none) :
    "30" ∉ (renderTrends r hfetch).2 ∧
    ∀ d ∈ assemblerDays, d ≠ "30" →
      (d ∈ (renderTrends r hfetch).2 ↔ (hfetch r.id d).isSome = true) := by
  constructor
  · simp [renderTrends, List.mem_filter, h30]
  · intro d hd _
    simp [renderTrends, List.mem_filter, hd]

/-- C6 (witness): a concrete outcome function failing only the 30-day
window. -/
theorem C6_window_independence_witness :
    "30" ∉ (renderTrends btc sampleHFetch).2 ∧
    ∀ d ∈ assemblerDays, d ≠ "30" →
      (d ∈ (renderTrends btc sampleHFetch).2
        ↔ (sampleHFetch btc.id d).isSome = true) :=
  C6_window_independence btc sampleHFetch rfl

/-- C7: in every completed pass, historical fetches are issued only when
the final candidate set has exactly one record, and a pass whose
candidate set is empty (no match) issues no historical fetch at all. -/
theorem trendSection_guard (fdf2 : DataFrame)
    (hfetch : String → String → HistData) :
    ((trendSection fdf2 hfetch).2.1 ≠ [] → fdf2.rows.length = 1) ∧
    (fdf2.rows = [] → (trendSection fdf2 hfetch).2.1 = []) := by
  unfold trendSection
  split
  case isTrue h1 =>
    refine ⟨fun _ => h1, fun hnil => ?_⟩
    rw [hnil] at h1
    simp at h1
  case isFalse h1 =>
    exact ⟨fun hne => absurd rfl hne, fun _ => rfl⟩

theorem C7_fetch_guard (df : DataFrame) (coin_name : String) (pickIdx : Nat)
    (hfetch : String → String → HistData) (out : PassOutput)
    (h : runPass df coin_name pickIdx hfetch = Except.ok out) :
    (out.fetches ≠ [] → out.finalRows.length = 1) ∧
    (out.finalRows = [] → out.fetches = []) := by
  unfold runPass at h
  split at h
  · cases h
  · injection h with h
    subst h
    exact trendSection_guard _ hfetch

/-- C7 (witness): the guard property at a concrete completed pass. -/
theorem C7_fetch_guard_witness :
    (samplePassOut.fetches ≠ [] → samplePassOut.finalRows.length = 1) ∧
    (samplePassOut.finalRows = [] → samplePassOut.fetches = []) :=
  C7_fetch_guard testDF "cash" 0 sampleHFetch samplePassOut rfl

/-- C5: two `get_snapshot` reads whose second falls within the 600-second
TTL of the entry return identical snapshot values with no second network
fetch, and a read after TTL expiry performs exactly one refetch. -/
theorem C5_cache_ttl (fetch : Nat → DataFrame) (t0 t1 t2 : Nat)
    (h01 : t1 - t0 ≤ 600) (h02 : t2 - t0 > 600) :
    (get_snapshot fetch none t0).2.2 = 1 ∧
    (get_snapshot fetch (get_snapshot fetch none t0).2.1 t1).1
      = (get_snapshot fetch none t0).1 ∧
    (get_snapshot fetch (get_snapshot fetch none t0).2.1 t1).2.2 = 0 ∧
    (get_snapshot fetch
        (get_snapshot fetch (get_snapshot fetch none t0).2.1 t1).2.1 t2).2.2
      = 1 := by
  have hneg : ¬ (t1 - t0 > cacheTTL) := by
    simp only [cacheTTL]
    omega
  have hpos : t2 - t0 > cacheTTL := by
    simp only [cacheTTL]
    omega
  have e1 : get_snapshot fetch none t0
      = (fetch t0, some { value := fetch t0, fetched_at := t0 }, 1) := rfl
  have e2 : get_snapshot fetch (some { value := fetch t0, fetched_at := t0 }) t1
      = (fetch t0, some { value := fetch t0, fetched_at := t0 }, 0) := by
    simp [get_snapshot, hneg]
  have e3 : get_snapshot fetch (some { value := fetch t0, fetched_at := t0 }) t2
      = (fetch t2, some { value := fetch t2, fetched_at := t2 }, 1) := by
    simp [get_snapshot, hpos]
  rw [e1]
  dsimp only
  rw [e2]
  dsimp only
  rw [e3]
  exact ⟨rfl, rfl, rfl, rfl⟩

/-- C5 (witness): reads at times 0, 600 and 601 with a constant fetch. -/
theorem C5_cache_ttl_witness :
    (get_snapshot (fun _ => testDF) none 0).2.2 = 1 ∧
    (get_snapshot (fun _ => testDF)
        (get_snapshot (fun _ => testDF) none 0).2.1 600).1
      = (get_snapshot (fun _ => testDF) none 0).1 ∧
    (get_snapshot (fun _ => testDF)
        (get_snapshot (fun _ => testDF) none 0).2.1 600).2.2 = 0 ∧
    (get_snapshot (fun _ => testDF)
        (get_snapshot (fun _ => testDF)
          (get_snapshot (fun _ => testDF) none 0).2.1 600).2.1 601).2.2
      = 1 :=
  C5_cache_ttl (fun _ => testDF) 0 600 601 (by decide) (by decide)

theorem filter_id_nodup (l : List CoinRecord) (r : CoinRecord)
    (hu : (l.map CoinRecord.id).Nodup) (hr : r ∈ l) :
    l.filter (fun x => decide (x.id = r.id)) = [r] := by
  induction l with
  | nil => cases hr
  | cons a t ih =>
    rw [List.map_cons, List.nodup_cons] at hu
    obtain ⟨ha, ht⟩ := hu
    rcases List.mem_cons.mp hr with rfl | hrt
    · rw [List.filter_cons_of_pos (by simp)]
      have hnil : t.filter (fun x => decide (x.id = r.id)) = [] := by
        rw [List.filter_eq_nil_iff]
        intro x hx
        simp only [decide_eq_true_eq]
        intro hxe
        exact ha (hxe ▸ List.mem_map_of_mem CoinRecord.id hx)
      rw [hnil]
    · have hane : ¬ (a.id = r.id) := by
        intro he
        exact ha (he ▸ List.mem_map_of_mem CoinRecord.id hrt)
      rw [List.filter_cons_of_neg (by simpa using hane)]
      exact ih ht hrt

/-- C10: with unique ids in the snapshot, disambiguating by the id of
any record of the snapshot (line 89's `df[df['id'] == selected_coin_id]`)
narrows the candidate set to exactly that one record. -/
theorem C10_disambiguation (df : DataFrame) (r : CoinRecord)
    (hu : (df.rows.map CoinRecord.id).Nodup) (hr : r ∈ df.rows) :
    (filterById df r.id).rows = [r] :=
  filter_id_nodup df.rows r hu hr

/-- C10 (witness): selecting Bitcoin Cash from the two-coin snapshot. -/
theorem C10_disambiguation_witness :
    (filterById testDF bch.id).rows = [bch] :=
  C10_disambiguation testDF bch (by decide) (by decide)
